import Mathlib

/-!
# Verification of the SCF organization reconciliation core

Shallow embedding of the reconciliation and identity-mapping logic of the
`stackit_scf_organization` and `stackit_scf_organization_manager` Terraform
resources (`stackit/internal/services/scf/organization/resource.go` and
`stackit/internal/services/scf/organizationmanager/resource.go`).

Go strings are modelled as `List Char`; Terraform framework values
(`types.String`, `types.Bool`) as explicit null-or-value sums; the remote
client as a record of response functions; each lifecycle handler as a pure
function returning its outcome together with the list of remote mutation
calls it issued.
-/

namespace ScfOrg

/-- A Go string, modelled as its character sequence. -/
abbrev GoString := List Char

/-- Modelled from the spec: `core.Separator` (package `internal/core`, not in
the sources at hand) is the reserved handle separator; the schema description
("structured as \"`project_id`,`org_id`\"") and the unit tests
(`fmt.Sprintf("%s,%s", ...)`) fix it to the comma character. -/
def separator : Char := ','

/-- `terraform-plugin-framework` `types.String`: either null (unset) or a
known string value. (The unknown state plays no role in the embedded logic
and is not modelled.) -/
inductive TFString where
  | null
  | value (s : GoString)
  deriving DecidableEq

/-- `types.String.ValueString()`: the known value, or `""` when null. -/
def TFString.valueString : TFString → GoString
  | .null => []
  | .value s => s

/-- `types.String.ValueStringPointer()`: `nil` when null, else the value. -/
def TFString.valueStringPointer : TFString → Option GoString
  | .null => none
  | .value s => some s

/-- `types.String.IsNull()`. -/
def TFString.isNull : TFString → Bool
  | .null => true
  | .value _ => false

/-- `types.StringPointerValue`: `nil` maps to null, everything else to a
known value. -/
def stringPointerValue : Option GoString → TFString
  | none => .null
  | some s => .value s

/-- `terraform-plugin-framework` `types.Bool`: null or a known boolean. -/
inductive TFBool where
  | null
  | value (b : Bool)
  deriving DecidableEq

/-- `types.Bool.ValueBool()`: the known value, or `false` when null. -/
def TFBool.valueBool : TFBool → Bool
  | .null => false
  | .value b => b

/-- `types.BoolPointerValue`. -/
def boolPointerValue : Option Bool → TFBool
  | none => .null
  | some b => .value b

deriving instance DecidableEq for Except

/-- `strings.Split` restricted to a one-character separator, as used by
`ImportState` with `core.Separator`: splitting yields one part per
separator-free run, with empty parts kept (`splitSep sep [] = [[]]`,
matching Go's `strings.Split("", sep) == []string{""}`). -/
def splitSep (sep : Char) : GoString → List GoString
  | [] => [[]]
  | c :: cs =>
    if c = sep then [] :: splitSep sep cs
    else (c :: (splitSep sep cs).headI) :: (splitSep sep cs).tail

/-- Modelled from the spec: `utils.BuildInternalTerraformId` (package
`internal/utils`, not in the sources at hand) concatenates the owning-scope
id and the remote-assigned id with the separator (§4.1 `Build`, schema
description `"project_id,org_id"`, scenario `Build("proj-1","org-9") =
"proj-1,org-9"`). -/
def buildInternalTerraformId (scopeId resourceId : GoString) : GoString :=
  scopeId ++ separator :: resourceId

/-- The failure of `scfOrganizationResource.ImportState`: the import
identifier did not have the `[project_id],[org_id]` format. -/
inductive ImportError where
  | invalidFormat (got : GoString)
  deriving DecidableEq

/-- `scfOrganizationResource.ImportState`, reduced to its decision logic:
split the import identifier on `core.Separator`; unless the split yields
exactly two non-empty parts, add the format error; otherwise seed the state
with `(project_id, org_id)`. -/
def importStateOrg (requestId : GoString) : Except ImportError (GoString × GoString) :=
  match splitSep separator requestId with
  | [projectId, orgId] =>
      if projectId = [] ∨ orgId = [] then .error (.invalidFormat requestId)
      else .ok (projectId, orgId)
  | _ => .error (.invalidFormat requestId)

/-! ## Remote response and state record -/

/-- A `time.Time` value, abstracted to its canonical `String()` rendering
(the only way the embedded code consumes it). -/
structure GoTime where
  rendered : GoString
  deriving DecidableEq

/-- The wire-format `scf.Organization` response object (SDK type; fields as
consumed by the embedded code and its unit tests: every field is a pointer,
`nil` meaning absent). -/
structure Organization where
  Guid : Option GoString := none
  Name : Option GoString := none
  Suspended : Option Bool := none
  ProjectId : Option GoString := none
  PlatformId : Option GoString := none
  Region : Option GoString := none
  Status : Option GoString := none
  QuotaId : Option GoString := none
  CreatedAt : Option GoTime := none
  UpdatedAt : Option GoTime := none
  deriving DecidableEq

/-- SDK getter `Organization.GetName`: zero value when the field is nil. -/
def Organization.GetName (o : Organization) : GoString := o.Name.getD []

/-- SDK getter `Organization.GetSuspended`: zero value when nil. -/
def Organization.GetSuspended (o : Organization) : Bool := o.Suspended.getD false

/-- SDK getter `Organization.GetQuotaId`: zero value when nil. -/
def Organization.GetQuotaId (o : Organization) : GoString := o.QuotaId.getD []

/-- The Terraform state/plan record `organization.Model`. -/
structure Model where
  Id : TFString := .null
  CreateAt : TFString := .null
  Name : TFString := .null
  PlatformId : TFString := .null
  ProjectId : TFString := .null
  QuotaId : TFString := .null
  OrgId : TFString := .null
  Region : TFString := .null
  Status : TFString := .null
  Suspended : TFBool := .null
  UpdatedAt : TFString := .null
  deriving DecidableEq

/-- Failures of `mapFields`. `nilTimeDeref` marks the Go expression
`response.CreatedAt.String()` (resp. `UpdatedAt`): calling `String()`
through a nil `*time.Time` dereferences the nil pointer and panics at
runtime, so no state record is produced on that path. -/
inductive MapError where
  | responseNil
  | modelNil
  | guidNotPresent
  | nilTimeDeref
  deriving DecidableEq

/-- `time.Time.String()` through a `*time.Time`: absence means a nil-pointer
dereference (runtime panic), modelled as `MapError.nilTimeDeref`. -/
def timeString : Option GoTime → Except MapError GoString
  | none => .error .nilTimeDeref
  | some t => .ok t.rendered

/-- `organization.mapFields`: nil-response and nil-guid checks, then a
field-by-field copy of the response into the model. The internal id is
rebuilt from the model's (locally known) project id and the response guid
before the project id field itself is overwritten from the response. -/
def mapFields (response : Option Organization) (model : Model) : Except MapError Model :=
  match response with
  | none => .error .responseNil
  | some r =>
    match r.Guid with
    | none => .error .guidNotPresent
    | some guid =>
      match timeString r.CreatedAt with
      | .error e => .error e
      | .ok createdAt =>
        match timeString r.UpdatedAt with
        | .error e => .error e
        | .ok updatedAt =>
          .ok { Id := .value (buildInternalTerraformId model.ProjectId.valueString guid)
                ProjectId := stringPointerValue r.ProjectId
                Region := stringPointerValue r.Region
                PlatformId := stringPointerValue r.PlatformId
                OrgId := stringPointerValue (some guid)
                Name := stringPointerValue r.Name
                Status := stringPointerValue r.Status
                Suspended := boolPointerValue r.Suspended
                QuotaId := stringPointerValue r.QuotaId
                CreateAt := .value createdAt
                UpdatedAt := .value updatedAt }

/-- `organization.toCreatePayload` output, `scf.CreateOrganizationPayload`. -/
structure CreateOrganizationPayload where
  Name : Option GoString := none
  PlatformId : Option GoString := none
  deriving DecidableEq

/-- `organization.toCreatePayload` (non-nil model path): name always set
from the plan, platform id only when not null. -/
def toCreatePayload (model : Model) : CreateOrganizationPayload :=
  { Name := model.Name.valueStringPointer
    PlatformId := if model.PlatformId.isNull then none else model.PlatformId.valueStringPointer }

/-! ## Remote client and lifecycle handlers -/

/-- A typed remote-call error: either a structured `oapierror.
GenericOpenAPIError` carrying a status code, or any other error text. The
service signals "resource does not exist" with HTTP status 404. -/
inductive RemoteError where
  | api (statusCode : Nat) (text : GoString)
  | other (text : GoString)
  deriving DecidableEq

/-- `scf.UpdateOrganizationPayload` (both pointer fields are always set by
the caller with `&name` / `&suspended`). -/
structure UpdateOrganizationPayload where
  Name : GoString
  Suspended : Bool
  deriving DecidableEq

/-- `scf.ApplyOrganizationQuotaPayload`. -/
structure ApplyOrganizationQuotaPayload where
  QuotaId : GoString
  deriving DecidableEq

/-- The response of `ApplyOrganizationQuota` (only its `QuotaId` pointer is
consumed). -/
structure ApplyQuotaResponse where
  QuotaId : Option GoString := none
  deriving DecidableEq

/-- The remote mutation calls the organization Update handler can issue,
with the exact argument values passed to the client. -/
inductive MutationCall where
  | updateOrganization (projectId region orgId : GoString) (payload : UpdateOrganizationPayload)
  | applyOrganizationQuota (projectId region orgId : GoString) (payload : ApplyOrganizationQuotaPayload)
  deriving DecidableEq

/-- The diagnostics an organization Update can add; each constructor is one
`core.LogAndAddError` site, so the constructor identifies which step
(attribute group) failed. -/
inductive UpdateError where
  /-- "Error retrieving organization state" (the guard read failed). -/
  | retrievingOrganizationState (detail : RemoteError)
  /-- "Error updating organization" (the name/suspended mutation failed). -/
  | updatingOrganization (detail : RemoteError)
  /-- "Error updating organization" (mapping the mutation response failed). -/
  | updatingOrganizationMapping (detail : MapError)
  /-- "Error applying organization quota" (the quota mutation failed). -/
  | applyingOrganizationQuota (detail : RemoteError)
  deriving DecidableEq

/-- The remote client operations used by the organization Update handler,
as pure response functions (arguments: project id, region, org id). -/
structure UpdateClient where
  getOrganization : GoString → GoString → GoString → Except RemoteError Organization
  updateOrganization : GoString → GoString → GoString → UpdateOrganizationPayload →
    Except RemoteError Organization
  applyOrganizationQuota : GoString → GoString → GoString → ApplyOrganizationQuotaPayload →
    Except RemoteError ApplyQuotaResponse

/-- The quota step of `scfOrganizationResource.Update`: if the planned quota
id differs from the freshly observed one, issue exactly one
`ApplyOrganizationQuota` call and on success overwrite only the model's
quota id with the response's; otherwise do nothing. -/
def updateQuotaStep (client : UpdateClient) (projectId region orgId quotaId : GoString)
    (org : Organization) (model : Model) (calls : List MutationCall) :
    Except UpdateError Model × List MutationCall :=
  if quotaId ≠ org.GetQuotaId then
    let call := MutationCall.applyOrganizationQuota projectId region orgId ⟨quotaId⟩
    match client.applyOrganizationQuota projectId region orgId ⟨quotaId⟩ with
    | .error e => (.error (.applyingOrganizationQuota e), calls ++ [call])
    | .ok applyOrgQuota =>
      (.ok { model with QuotaId := stringPointerValue applyOrgQuota.QuotaId }, calls ++ [call])
  else (.ok model, calls)

/-- `scfOrganizationResource.Update`: read plan and state, one guard read of
the remote organization, then the name/suspended group (one
`UpdateOrganization` call plus a full `mapFields` remap of its response when
the group differs), then the quota group. Returns the outcome (`.ok` with
the model passed to `response.State.Set`, or the first error, after which
the handler returns without setting state) together with the mutation calls
issued, in order. -/
def scfOrganizationUpdate (client : UpdateClient) (plan stateModel : Model) :
    Except UpdateError Model × List MutationCall :=
  let region := plan.Region.valueString
  let projectId := plan.ProjectId.valueString
  let orgId := plan.OrgId.valueString
  let name := plan.Name.valueString
  let quotaId := plan.QuotaId.valueString
  let suspended := plan.Suspended.valueBool
  match client.getOrganization projectId region orgId with
  | .error e => (.error (.retrievingOrganizationState e), [])
  | .ok org =>
    if name ≠ org.GetName ∨ suspended ≠ org.GetSuspended then
      let call := MutationCall.updateOrganization projectId region orgId ⟨name, suspended⟩
      match client.updateOrganization projectId region orgId ⟨name, suspended⟩ with
      | .error e => (.error (.updatingOrganization e), [call])
      | .ok updatedOrg =>
        match mapFields (some updatedOrg) plan with
        | .error e => (.error (.updatingOrganizationMapping e), [call])
        | .ok model1 => updateQuotaStep client projectId region orgId quotaId org model1 [call]
    else updateQuotaStep client projectId region orgId quotaId org plan []

/-- Outcome of `scfOrganizationResource.Delete`. -/
inductive DeleteOutcome where
  /-- The handler returned with no diagnostics: the resource is removed from
  state. -/
  | deleted
  /-- "Error deleting scf organization": the error is surfaced and the
  resource stays in state. -/
  | fatal (detail : RemoteError)
  deriving DecidableEq

/-- `scfOrganizationResource.Delete`, reduced to its disposition of the
remote delete call's result: any non-nil error — with no inspection of its
status code — is surfaced as a fatal diagnostic; only a nil error deletes. -/
def scfOrganizationDelete (deleteErr : Option RemoteError) : DeleteOutcome :=
  match deleteErr with
  | some e => .fatal e
  | none => .deleted

/-- The remote calls the organization Create handler can issue, with the
exact argument values passed to the client. -/
inductive CreateCall where
  | createOrganization (projectId region : GoString) (payload : CreateOrganizationPayload)
  | applyOrganizationQuota (projectId region orgId : GoString) (payload : ApplyOrganizationQuotaPayload)
  | getOrganization (projectId region orgId : GoString)
  deriving DecidableEq

/-- The diagnostics an organization Create can add. `nilGuidDeref` marks the
Go expression `*scfOrgCreateResponse.Guid`, an unchecked dereference that
panics when the create response carries no guid. -/
inductive CreateError where
  | creatingOrganization (detail : RemoteError)
  | applyingOrganizationQuota (detail : RemoteError)
  | nilGuidDeref
  | loadingCreatedOrganization (detail : RemoteError)
  | mappingFields (detail : MapError)
  deriving DecidableEq

/-- The remote client operations used by the organization Create handler. -/
structure CreateClient where
  createOrganization : GoString → GoString → CreateOrganizationPayload →
    Except RemoteError Organization
  applyOrganizationQuota : GoString → GoString → GoString → ApplyOrganizationQuotaPayload →
    Except RemoteError ApplyQuotaResponse
  getOrganization : GoString → GoString → GoString → Except RemoteError Organization

/-- The tail of `scfOrganizationResource.Create` after the optional quota
step: dereference the create response's guid, load the created organization
(using the provider-configured region), and map it into the model. -/
def createLoadStep (client : CreateClient) (providerRegion projectId : GoString)
    (createResp : Organization) (model : Model) (calls : List CreateCall) :
    Except CreateError Model × List CreateCall :=
  match createResp.Guid with
  | none => (.error .nilGuidDeref, calls)
  | some guid =>
    let call := CreateCall.getOrganization projectId providerRegion guid
    match client.getOrganization projectId providerRegion guid with
    | .error e => (.error (.loadingCreatedOrganization e), calls ++ [call])
    | .ok scfOrgResponse =>
      match mapFields (some scfOrgResponse) model with
      | .error e => (.error (.mappingFields e), calls ++ [call])
      | .ok m => (.ok m, calls ++ [call])

/-- `scfOrganizationResource.Create`: create the organization (with the
provider-configured region), then — when the plan supplies a quota id — one
`ApplyOrganizationQuota` call whose region and org id arguments are taken
from the planned model (`model.Region.ValueString()`,
`model.OrgId.ValueString()`, both read before any response is seen), then
load and map the created organization. -/
def scfOrganizationCreate (client : CreateClient) (providerRegion : GoString) (plan : Model) :
    Except CreateError Model × List CreateCall :=
  let region := plan.Region.valueString
  let projectId := plan.ProjectId.valueString
  let orgId := plan.OrgId.valueString
  let quotaId := plan.QuotaId.valueString
  let payload := toCreatePayload plan
  let callCreate := CreateCall.createOrganization projectId providerRegion payload
  match client.createOrganization projectId providerRegion payload with
  | .error e => (.error (.creatingOrganization e), [callCreate])
  | .ok createResp =>
    if quotaId ≠ [] then
      let callQuota := CreateCall.applyOrganizationQuota projectId region orgId ⟨quotaId⟩
      match client.applyOrganizationQuota projectId region orgId ⟨quotaId⟩ with
      | .error e => (.error (.applyingOrganizationQuota e), [callCreate, callQuota])
      | .ok applyOrgQuota =>
        createLoadStep client providerRegion projectId createResp
          { plan with QuotaId := stringPointerValue applyOrgQuota.QuotaId }
          [callCreate, callQuota]
    else
      createLoadStep client providerRegion projectId createResp plan [callCreate]

/-! ## Organization manager -/

/-- The Terraform state/plan record `organizationmanager.Model`. -/
structure OrgManagerModel where
  Id : TFString := .null
  Region : TFString := .null
  PlatformId : TFString := .null
  ProjectId : TFString := .null
  OrgId : TFString := .null
  UserId : TFString := .null
  UserName : TFString := .null
  Password : TFString := .null
  CreateAt : TFString := .null
  UpdatedAt : TFString := .null
  deriving DecidableEq

/-- The remote calls available to the organization manager resource
(create/get/delete — the resource has no update endpoint). -/
inductive OrgManagerCall where
  | createOrgManager (projectId region orgId : GoString)
  | getOrgManager (projectId region orgId : GoString)
  | deleteOrgManager (projectId region orgId : GoString)
  deriving DecidableEq

/-- The single diagnostic `scfOrganizationManagerResource.Update` can add:
"Error updating organization manager" / "Organization Manager can't be
updated". -/
inductive OrgManagerUpdateError where
  | cannotUpdate
  deriving DecidableEq

/-- `scfOrganizationManagerResource.Update`: unconditionally adds the
fatal "can't be updated" diagnostic; it issues no remote call and never
sets a new state. -/
def scfOrganizationManagerUpdate (plan stateModel : OrgManagerModel) :
    Option OrgManagerUpdateError × Option OrgManagerModel × List OrgManagerCall :=
  (some .cannotUpdate, none, [])

/-! ## Concrete fixtures -/

/-- A concrete timestamp with its Go rendering. -/
def torg : GoTime := ⟨"2025-01-01 00:00:00 +0000 UTC".data⟩

/-- A response with every field present except the guid. -/
def orgNoGuid : Organization :=
  { Name := some "acme".data, Suspended := some true, ProjectId := some "p1".data,
    PlatformId := some "pl1".data, Region := some "eu01".data, Status := some "ok".data,
    QuotaId := some "q1".data, CreatedAt := some torg, UpdatedAt := some torg }

/-- The unit tests' `minimal_input` response: guid and name present, every
other field (including both timestamps) absent. -/
def orgMinimal : Organization :=
  { Guid := some "g1".data, Name := some "scf-org-min-instance".data }

/-- A response that omits the project id (scope fragment) but carries guid,
name and timestamps. -/
def orgScopeAbsent : Organization :=
  { Guid := some "g1".data, Name := some "acme".data,
    CreatedAt := some torg, UpdatedAt := some torg }

/-- A model holding the locally-known project id, as seeded before a read. -/
def hintModel : Model := { ProjectId := .value "proj-1".data }

/-- The freshly observed remote organization used in the update scenarios:
name `acme`, not suspended, quota `q1`. -/
def obsOrg : Organization :=
  { Guid := some "o1".data, Name := some "acme".data, Suspended := some false,
    ProjectId := some "p1".data, Region := some "eu01".data,
    QuotaId := some "q1".data, CreatedAt := some torg, UpdatedAt := some torg }

/-- An `UpdateOrganization` response for the renamed organization that omits
the quota field. -/
def updRespNoQuota : Organization :=
  { obsOrg with Name := some "acme2".data, QuotaId := none }

/-- An `UpdateOrganization` response for the renamed organization that still
reports quota `q1`. -/
def updRespFull : Organization := { obsOrg with Name := some "acme2".data }

/-- A plan that changes only the name (`acme` to `acme2`); quota stays `q1`. -/
def planNameChange : Model :=
  { Name := .value "acme2".data, QuotaId := .value "q1".data,
    ProjectId := .value "p1".data, OrgId := .value "o1".data,
    Region := .value "eu01".data, Suspended := .value false }

/-- A plan that changes the name and the quota (`q1` to `q2`). -/
def planBothChange : Model := { planNameChange with QuotaId := .value "q2".data }

/-- The prior Terraform state matching `obsOrg`. -/
def priorState : Model := { planNameChange with Name := .value "acme".data }

/-- A client whose update response omits the quota field. -/
def clientNoQuotaResp : UpdateClient :=
  { getOrganization := fun _ _ _ => .ok obsOrg
    updateOrganization := fun _ _ _ _ => .ok updRespNoQuota
    applyOrganizationQuota := fun _ _ _ _ => .ok ⟨some "q2".data⟩ }

/-- A client on which every call succeeds. -/
def clientBothOk : UpdateClient :=
  { getOrganization := fun _ _ _ => .ok obsOrg
    updateOrganization := fun _ _ _ _ => .ok updRespFull
    applyOrganizationQuota := fun _ _ _ _ => .ok ⟨some "q2".data⟩ }

/-- A client on which the quota mutation fails. -/
def clientQuotaFails : UpdateClient :=
  { getOrganization := fun _ _ _ => .ok obsOrg
    updateOrganization := fun _ _ _ _ => .ok updRespFull
    applyOrganizationQuota := fun _ _ _ _ => .error (.other "boom".data) }

/-- A client on which the name/suspended mutation fails. -/
def clientUpdateFails : UpdateClient :=
  { getOrganization := fun _ _ _ => .ok obsOrg
    updateOrganization := fun _ _ _ _ => .error (.other "bang".data)
    applyOrganizationQuota := fun _ _ _ _ => .ok ⟨some "q2".data⟩ }

/-- The result of mapping `updRespFull` over `planBothChange`. -/
def mappedUpdRespFull : Model :=
  { Id := .value "p1,o1".data, ProjectId := .value "p1".data,
    Region := .value "eu01".data, PlatformId := .null, OrgId := .value "o1".data,
    Name := .value "acme2".data, Status := .null, Suspended := .value false,
    QuotaId := .value "q1".data, CreateAt := .value torg.rendered,
    UpdatedAt := .value torg.rendered }

/-- The result of mapping `updRespNoQuota` over `planNameChange`: since the
update response omits the quota field, the remap leaves `QuotaId` null. -/
def mappedNoQuota : Model :=
  { mappedUpdRespFull with QuotaId := .null }

/-- A create-time plan: required fields set, computed attributes (`org_id`,
`region`) unset, quota supplied. -/
def planCreate : Model :=
  { Name := .value "acme".data, ProjectId := .value "p1".data,
    QuotaId := .value "q1".data }

/-- The organization returned by the create call (and by the load that
follows), with remote-assigned guid `g-created`. -/
def createRespOrg : Organization :=
  { Guid := some "g-created".data, Name := some "acme".data,
    ProjectId := some "p1".data, Region := some "eu01".data,
    QuotaId := some "q1".data, CreatedAt := some torg, UpdatedAt := some torg }

/-- A create client on which every call succeeds. -/
def clientCreate : CreateClient :=
  { createOrganization := fun _ _ _ => .ok createRespOrg
    applyOrganizationQuota := fun _ _ _ _ => .ok ⟨some "q1".data⟩
    getOrganization := fun _ _ _ => .ok createRespOrg }

/-! ## Lemmas about `splitSep` -/

theorem splitSep_ne_nil (sep : Char) (s : GoString) : splitSep sep s ≠ [] := by
  cases s with
  | nil => simp [splitSep]
  | cons c cs => by_cases h : c = sep <;> simp [splitSep, h]

theorem splitSep_of_not_mem (sep : Char) (s : GoString) (h : sep ∉ s) :
    splitSep sep s = [s] := by
  induction s with
  | nil => rfl
  | cons c cs ih =>
    have hc : ¬c = sep := fun hc => h (hc ▸ List.mem_cons_self c cs)
    have hcs : sep ∉ cs := fun hm => h (List.mem_cons_of_mem c hm)
    simp [splitSep, hc, ih hcs]

theorem splitSep_append (sep : Char) (a b : GoString) (ha : sep ∉ a) :
    splitSep sep (a ++ sep :: b) = a :: splitSep sep b := by
  induction a with
  | nil => simp [splitSep]
  | cons c cs ih =>
    have hc : ¬c = sep := fun hc => ha (hc ▸ List.mem_cons_self c cs)
    have hcs : sep ∉ cs := fun hm => ha (List.mem_cons_of_mem c hm)
    simp [splitSep, hc, ih hcs]

theorem not_mem_of_mem_splitSep (sep : Char) (s : GoString) :
    ∀ p ∈ splitSep sep s, sep ∉ p := by
  induction s with
  | nil =>
    intro p hp
    simp [splitSep] at hp
    simp [hp]
  | cons c cs ih =>
    intro p hp
    by_cases hc : c = sep
    · simp [splitSep, hc] at hp
      rcases hp with hp | hp
      · simp [hp]
      · exact ih p hp
    · simp [splitSep, hc] at hp
      rcases hp with hp | hp
      · subst hp
        intro hmem
        obtain ⟨r, rs, hrs⟩ := List.exists_cons_of_ne_nil (splitSep_ne_nil sep cs)
        rcases List.mem_cons.mp hmem with h | h
        · exact hc h.symm
        · have hhead : (splitSep sep cs).headI ∈ splitSep sep cs := by
            rw [hrs]; exact List.mem_cons_self r rs
          exact ih _ hhead h
      · have : p ∈ splitSep sep cs := List.mem_of_mem_tail hp
        exact ih p this

theorem eq_of_splitSep_eq_single (sep : Char) (s x : GoString)
    (h : splitSep sep s = [x]) : s = x := by
  induction s generalizing x with
  | nil =>
    simp [splitSep] at h
    simp [h]
  | cons c cs ih =>
    by_cases hc : c = sep
    · simp [splitSep, hc] at h
      exact absurd h.2 (splitSep_ne_nil sep cs)
    · simp [splitSep, hc] at h
      obtain ⟨hx, htail⟩ := h
      obtain ⟨r, rs, hrs⟩ := List.exists_cons_of_ne_nil (splitSep_ne_nil sep cs)
      rw [hrs] at htail
      simp at htail
      have hsingle : splitSep sep cs = [r] := by rw [hrs, htail]
      have := ih r hsingle
      subst this
      rw [← hx]
      simp [hrs, List.headI]

theorem eq_of_splitSep_eq_pair (sep : Char) (s a b : GoString)
    (h : splitSep sep s = [a, b]) : s = a ++ sep :: b := by
  induction s generalizing a with
  | nil => simp [splitSep] at h
  | cons c cs ih =>
    by_cases hc : c = sep
    · simp [splitSep, hc] at h
      obtain ⟨ha, hb⟩ := h
      have := eq_of_splitSep_eq_single sep cs b hb
      subst this
      simp [hc, ← ha]
    · simp [splitSep, hc] at h
      obtain ⟨ha, htail⟩ := h
      obtain ⟨r, rs, hrs⟩ := List.exists_cons_of_ne_nil (splitSep_ne_nil sep cs)
      rw [hrs] at htail
      simp at htail
      have hpair : splitSep sep cs = [r, b] := by rw [hrs, htail]
      have hcs := ih r hpair
      rw [← ha, hrs]
      simp [hcs]

/-- Characterization of successful import-identifier decoding: it succeeds
with `(a, b)` exactly when the input is `a ++ sep :: b` with both fragments
non-empty and separator-free. -/
theorem importStateOrg_ok_iff (s a b : GoString) :
    importStateOrg s = .ok (a, b) ↔
      s = a ++ separator :: b ∧ a ≠ [] ∧ b ≠ [] ∧ separator ∉ a ∧ separator ∉ b := by
  constructor
  · intro h
    unfold importStateOrg at h
    rcases hsplit : splitSep separator s with _ | ⟨x, _ | ⟨y, _ | ⟨z, tl⟩⟩⟩ <;>
      rw [hsplit] at h
    · simp at h
    · simp at h
    · by_cases hxy : x = [] ∨ y = []
      · simp [hxy] at h
      · simp [hxy] at h
        push_neg at hxy
        obtain ⟨hx, hy⟩ := h
        subst hx; subst hy
        refine ⟨eq_of_splitSep_eq_pair separator s x y hsplit, hxy.1, hxy.2, ?_, ?_⟩
        · exact not_mem_of_mem_splitSep separator s x (by simp [hsplit])
        · exact not_mem_of_mem_splitSep separator s y (by simp [hsplit])
    · simp at h
  · rintro ⟨hs, ha, hb, hma, hmb⟩
    subst hs
    unfold importStateOrg
    rw [splitSep_append separator a b hma, splitSep_of_not_mem separator b hmb]
    simp [ha, hb]

/-! ## Claim theorems -/

/-- C6: decoding the handle built from two non-empty separator-free
fragments recovers exactly the original pair in order:
`Decode(Build(a, b)) = (a, b)`. -/
theorem decode_build_roundtrip (a b : GoString) (ha : a ≠ []) (hb : b ≠ [])
    (hma : separator ∉ a) (hmb : separator ∉ b) :
    importStateOrg (buildInternalTerraformId a b) = .ok (a, b) :=
  (importStateOrg_ok_iff _ a b).mpr ⟨rfl, ha, hb, hma, hmb⟩

/-- C6 witness: `Build("proj-1","org-9")` is `"proj-1,org-9"`, and decoding
it yields `("proj-1","org-9")`. -/
theorem decode_build_roundtrip_witness :
    ("proj-1".data ≠ ([] : GoString) ∧ "org-9".data ≠ ([] : GoString) ∧
      separator ∉ "proj-1".data ∧ separator ∉ "org-9".data) ∧
    buildInternalTerraformId "proj-1".data "org-9".data = "proj-1,org-9".data ∧
    importStateOrg "proj-1,org-9".data = .ok ("proj-1".data, "org-9".data) := by
  refine ⟨⟨by decide, by decide, by decide, by decide⟩, by decide, ?_⟩
  have h := decode_build_roundtrip "proj-1".data "org-9".data (by decide) (by decide)
    (by decide) (by decide)
  have hb : buildInternalTerraformId "proj-1".data "org-9".data = "proj-1,org-9".data := by
    decide
  rw [hb] at h
  exact h

/-- C7: decoding an import identifier fails (with the malformed-handle
diagnostic) exactly when the input is not a separator-join of exactly two
non-empty separator-free fragments — i.e. it rejects strings with zero
separators, more than one separator, or an empty fragment on either side,
and accepts all others. -/
theorem importStateOrg_error_iff (s : GoString) :
    (∃ e, importStateOrg s = .error e) ↔
      ¬∃ a b : GoString, s = a ++ separator :: b ∧ a ≠ [] ∧ b ≠ [] ∧
        separator ∉ a ∧ separator ∉ b := by
  constructor
  · rintro ⟨e, he⟩ ⟨a, b, hs, ha, hb, hma, hmb⟩
    have hok := (importStateOrg_ok_iff s a b).mpr ⟨hs, ha, hb, hma, hmb⟩
    rw [he] at hok
    exact absurd hok (by simp)
  · intro hn
    cases h : importStateOrg s with
    | error e => exact ⟨e, rfl⟩
    | ok p =>
      obtain ⟨hs, ha, hb, hma, hmb⟩ := (importStateOrg_ok_iff s p.1 p.2).mp (by rw [h])
      exact absurd ⟨p.1, p.2, hs, ha, hb, hma, hmb⟩ hn

/-- C4: for every response whose guid is nil, `mapFields` fails with the
missing-guid error and produces no state record, regardless of the other
fields. -/
theorem mapFields_nil_guid_fails (r : Organization) (m : Model) (h : r.Guid = none) :
    mapFields (some r) m = .error .guidNotPresent := by
  simp [mapFields, h]

/-- C4 witness: a response with every field present except the guid is
rejected. -/
theorem mapFields_nil_guid_fails_witness :
    orgNoGuid.Guid = none ∧ mapFields (some orgNoGuid) hintModel = .error .guidNotPresent :=
  ⟨rfl, mapFields_nil_guid_fails orgNoGuid hintModel rfl⟩

/-- C5 (failing input): on the unit tests' `minimal_input` response (guid
and name present, timestamps absent) `mapFields` hits the nil `*time.Time`
dereference — a runtime panic — instead of producing a state with null
`created_at`/`updated_at` as the test expects. -/
theorem mapFields_nil_timestamp_panics :
    mapFields (some orgMinimal) hintModel = .error .nilTimeDeref
      ∧ orgMinimal.CreatedAt = none ∧ orgMinimal.Guid = some "g1".data :=
  ⟨rfl, rfl, rfl⟩

/-- C8 (failing input): on a response whose scope fragment (project id) is
absent, `mapFields` rebuilds the internal id from the locally-known project
id, but then overwrites the model's `project_id` with null — losing the
locally-known value the unit test expects to be retained. -/
theorem mapFields_scope_fallback_only_in_id :
    ∃ m : Model, mapFields (some orgScopeAbsent) hintModel = .ok m
      ∧ m.Id = .value (buildInternalTerraformId "proj-1".data "g1".data)
      ∧ m.ProjectId = .null
      ∧ orgScopeAbsent.ProjectId = none
      ∧ hintModel.ProjectId = .value "proj-1".data :=
  ⟨_, rfl, rfl, rfl, rfl, rfl⟩

/-- C9: the organization manager Update handler terminates with the fatal
"can't be updated" diagnostic on every input, issues no remote call and
sets no state. -/
theorem orgManagerUpdate_always_fatal (plan stateModel : OrgManagerModel) :
    scfOrganizationManagerUpdate plan stateModel = (some .cannotUpdate, none, []) := rfl

/-- C2 counterexample: a delete call failing with the service's NotFound
status (HTTP 404) makes Delete terminate with a fatal error, not with the
success outcome `deleted`. -/
theorem delete_notFound_is_fatal :
    scfOrganizationDelete (some (.api 404 "SCF organization not found".data))
        = .fatal (.api 404 "SCF organization not found".data)
      ∧ scfOrganizationDelete (some (.api 404 "SCF organization not found".data))
        ≠ .deleted :=
  ⟨rfl, by decide⟩

/-- C2 amended: Delete succeeds exactly when the remote delete call returns
no error; every error — the NotFound status included — is surfaced as a
fatal diagnostic, so Delete is not idempotent. -/
theorem delete_outcome_iff (r : Option RemoteError) :
    scfOrganizationDelete r = .deleted ↔ r = none := by
  cases r <;> simp [scfOrganizationDelete]

/-- C1 amended: when the guard read and every issued mutation call succeed,
Update issues exactly one mutation call per differing attribute group, in
order (name/suspended, then quota), and zero calls when no group differs;
the quota mutation overwrites only the model's quota id, while the
name/suspended mutation remaps the full update response via `mapFields`
(so fields of other groups take the update response's values rather than
retaining their prior ones). -/
theorem orgUpdate_calls_per_group
    (client : UpdateClient) (plan stateModel : Model) (org updatedOrg : Organization)
    (applyResp : ApplyQuotaResponse) (model1 : Model)
    (hGet : client.getOrganization plan.ProjectId.valueString plan.Region.valueString
      plan.OrgId.valueString = .ok org)
    (hUpd : client.updateOrganization plan.ProjectId.valueString plan.Region.valueString
      plan.OrgId.valueString ⟨plan.Name.valueString, plan.Suspended.valueBool⟩ = .ok updatedOrg)
    (hMap : mapFields (some updatedOrg) plan = .ok model1)
    (hQuota : client.applyOrganizationQuota plan.ProjectId.valueString plan.Region.valueString
      plan.OrgId.valueString ⟨plan.QuotaId.valueString⟩ = .ok applyResp) :
    scfOrganizationUpdate client plan stateModel =
      (.ok (if plan.QuotaId.valueString ≠ org.GetQuotaId then
              { (if plan.Name.valueString ≠ org.GetName ∨
                    plan.Suspended.valueBool ≠ org.GetSuspended then model1 else plan) with
                QuotaId := stringPointerValue applyResp.QuotaId }
            else (if plan.Name.valueString ≠ org.GetName ∨
                    plan.Suspended.valueBool ≠ org.GetSuspended then model1 else plan)),
       (if plan.Name.valueString ≠ org.GetName ∨
            plan.Suspended.valueBool ≠ org.GetSuspended then
          [MutationCall.updateOrganization plan.ProjectId.valueString plan.Region.valueString
            plan.OrgId.valueString ⟨plan.Name.valueString, plan.Suspended.valueBool⟩]
        else [])
       ++ (if plan.QuotaId.valueString ≠ org.GetQuotaId then
          [MutationCall.applyOrganizationQuota plan.ProjectId.valueString
            plan.Region.valueString plan.OrgId.valueString ⟨plan.QuotaId.valueString⟩]
        else [])) := by
  by_cases h1 : plan.Name.valueString ≠ org.GetName ∨ plan.Suspended.valueBool ≠ org.GetSuspended <;>
    by_cases h2 : plan.QuotaId.valueString ≠ org.GetQuotaId <;>
    simp [scfOrganizationUpdate, updateQuotaStep, hGet, hUpd, hMap, hQuota, h1, h2]

/-- C1 witness: with both groups differing (name `acme` to `acme2`, quota
`q1` to `q2`) and all calls succeeding, Update issues exactly the two calls
in order and merges the quota response's quota id into the remapped model. -/
theorem orgUpdate_calls_per_group_witness :
    (clientBothOk.getOrganization planBothChange.ProjectId.valueString
        planBothChange.Region.valueString planBothChange.OrgId.valueString = .ok obsOrg)
    ∧ (clientBothOk.updateOrganization planBothChange.ProjectId.valueString
        planBothChange.Region.valueString planBothChange.OrgId.valueString
        ⟨planBothChange.Name.valueString, planBothChange.Suspended.valueBool⟩ = .ok updRespFull)
    ∧ mapFields (some updRespFull) planBothChange = .ok mappedUpdRespFull
    ∧ (clientBothOk.applyOrganizationQuota planBothChange.ProjectId.valueString
        planBothChange.Region.valueString planBothChange.OrgId.valueString
        ⟨planBothChange.QuotaId.valueString⟩ = .ok ⟨some "q2".data⟩)
    ∧ scfOrganizationUpdate clientBothOk planBothChange priorState
        = (.ok { mappedUpdRespFull with QuotaId := .value "q2".data },
           [MutationCall.updateOrganization "p1".data "eu01".data "o1".data
              ⟨"acme2".data, false⟩,
            MutationCall.applyOrganizationQuota "p1".data "eu01".data "o1".data
              ⟨"q2".data⟩]) := by
  refine ⟨rfl, rfl, by decide, rfl, ?_⟩
  have h := orgUpdate_calls_per_group clientBothOk planBothChange priorState obsOrg
    updRespFull ⟨some "q2".data⟩ mappedUpdRespFull rfl rfl (by decide) rfl
  exact h.trans (by decide)

/-- C1 counterexample: with only the name group differing (observed and
desired quota both `q1`) the name/suspended mutation's response omits the
quota field, and the remap overwrites the stored quota id to null — a field
of the other (quota) group does not retain its prior value `q1`. -/
theorem orgUpdate_core_mutation_overwrites_quota :
    scfOrganizationUpdate clientNoQuotaResp planNameChange priorState
        = (.ok mappedNoQuota,
           [MutationCall.updateOrganization "p1".data "eu01".data "o1".data
             ⟨"acme2".data, false⟩])
      ∧ planNameChange.QuotaId = .value "q1".data
      ∧ priorState.QuotaId = .value "q1".data
      ∧ obsOrg.GetQuotaId = "q1".data
      ∧ updRespNoQuota.QuotaId = none
      ∧ mappedNoQuota.QuotaId = .null := by
  decide

/-- C3 amended: when a group's mutation call fails, Update issues no call
for the remaining groups and surfaces an error whose constructor identifies
the failing group; the handler then terminates with that error and without
any new state, so the state returned to the caller is the unchanged prior
state — it does not reflect the groups that succeeded before the failure
(nor is the remote partial application rolled back). -/
theorem orgUpdate_abort_on_group_failure
    (client : UpdateClient) (plan stateModel : Model) (org : Organization)
    (hGet : client.getOrganization plan.ProjectId.valueString plan.Region.valueString
      plan.OrgId.valueString = .ok org)
    (hCore : plan.Name.valueString ≠ org.GetName ∨
      plan.Suspended.valueBool ≠ org.GetSuspended) :
    (∀ e, client.updateOrganization plan.ProjectId.valueString plan.Region.valueString
        plan.OrgId.valueString ⟨plan.Name.valueString, plan.Suspended.valueBool⟩ = .error e →
      scfOrganizationUpdate client plan stateModel
        = (.error (.updatingOrganization e),
           [MutationCall.updateOrganization plan.ProjectId.valueString
             plan.Region.valueString plan.OrgId.valueString
             ⟨plan.Name.valueString, plan.Suspended.valueBool⟩]))
    ∧ (∀ e updatedOrg model1,
        client.updateOrganization plan.ProjectId.valueString plan.Region.valueString
          plan.OrgId.valueString ⟨plan.Name.valueString, plan.Suspended.valueBool⟩
            = .ok updatedOrg →
        mapFields (some updatedOrg) plan = .ok model1 →
        plan.QuotaId.valueString ≠ org.GetQuotaId →
        client.applyOrganizationQuota plan.ProjectId.valueString plan.Region.valueString
          plan.OrgId.valueString ⟨plan.QuotaId.valueString⟩ = .error e →
        scfOrganizationUpdate client plan stateModel
          = (.error (.applyingOrganizationQuota e),
             [MutationCall.updateOrganization plan.ProjectId.valueString
                plan.Region.valueString plan.OrgId.valueString
                ⟨plan.Name.valueString, plan.Suspended.valueBool⟩,
              MutationCall.applyOrganizationQuota plan.ProjectId.valueString
                plan.Region.valueString plan.OrgId.valueString
                ⟨plan.QuotaId.valueString⟩])) := by
  constructor
  · intro e hUpd
    simp [scfOrganizationUpdate, hGet, hCore, hUpd]
  · intro e updatedOrg model1 hUpd hMap hQuotaDiff hQuota
    simp [scfOrganizationUpdate, updateQuotaStep, hGet, hCore, hUpd, hMap, hQuotaDiff, hQuota]

/-- C3 witness: one client on which the name/suspended mutation itself
fails (only its call issued, "updating organization" error), and one on
which it succeeds but the quota mutation fails (both calls issued,
"applying organization quota" error, no state in the outcome). -/
theorem orgUpdate_abort_on_group_failure_witness :
    scfOrganizationUpdate clientUpdateFails planBothChange priorState
        = (.error (.updatingOrganization (.other "bang".data)),
           [MutationCall.updateOrganization "p1".data "eu01".data "o1".data
             ⟨"acme2".data, false⟩])
    ∧ scfOrganizationUpdate clientQuotaFails planBothChange priorState
        = (.error (.applyingOrganizationQuota (.other "boom".data)),
           [MutationCall.updateOrganization "p1".data "eu01".data "o1".data
              ⟨"acme2".data, false⟩,
            MutationCall.applyOrganizationQuota "p1".data "eu01".data "o1".data
              ⟨"q2".data⟩]) := by
  constructor
  · have h := (orgUpdate_abort_on_group_failure clientUpdateFails planBothChange priorState
      obsOrg rfl (by decide)).1 (.other "bang".data) rfl
    exact h.trans (by decide)
  · have h := (orgUpdate_abort_on_group_failure clientQuotaFails planBothChange priorState
      obsOrg rfl (by decide)).2 (.other "boom".data) updRespFull mappedUpdRespFull rfl
      (by decide) (by decide) rfl
    exact h.trans (by decide)

/-- C3 counterexample: the name/suspended mutation succeeds (the client
returns the renamed organization and its remap succeeds, carrying the new
name `acme2`), then the quota mutation fails; the Update outcome is the
quota error with no state attached, so the caller's state stays the prior
one (name `acme`) and does not reflect the group that succeeded. -/
theorem orgUpdate_partial_success_not_returned :
    (clientQuotaFails.updateOrganization "p1".data "eu01".data "o1".data
        ⟨"acme2".data, false⟩ = .ok updRespFull)
    ∧ mapFields (some updRespFull) planBothChange = .ok mappedUpdRespFull
    ∧ mappedUpdRespFull.Name = .value "acme2".data
    ∧ (scfOrganizationUpdate clientQuotaFails planBothChange priorState).1
        = .error (.applyingOrganizationQuota (.other "boom".data))
    ∧ priorState.Name = .value "acme".data := by
  decide

/-- The load-and-map tail of Create only appends to the call list it is
given. -/
theorem createLoadStep_calls_extend (client : CreateClient)
    (providerRegion projectId : GoString) (createResp : Organization)
    (model : Model) (calls : List CreateCall) :
    ∃ rest, (createLoadStep client providerRegion projectId createResp model calls).2
      = calls ++ rest := by
  rcases hg : createResp.Guid with _ | g
  · exact ⟨[], by simp [createLoadStep, hg]⟩
  · rcases hget : client.getOrganization projectId providerRegion g with e | resp
    · exact ⟨[CreateCall.getOrganization projectId providerRegion g],
        by simp [createLoadStep, hg, hget]⟩
    · rcases hmap : mapFields (some resp) model with e | m
      · exact ⟨[CreateCall.getOrganization projectId providerRegion g],
          by simp [createLoadStep, hg, hget, hmap]⟩
      · exact ⟨[CreateCall.getOrganization projectId providerRegion g],
          by simp [createLoadStep, hg, hget, hmap]⟩

/-- C10: when the plan supplies a quota id and the create call succeeds,
Create issues the quota-apply call as its second remote call, with the org
id and region argument values read from the planned model before the create
call; since `org_id` and `region` are computed attributes (null in the
plan), the quota call's org id argument is the empty string — different
from the (non-empty) guid of the organization just created — and its region
argument is the empty string, not the provider-configured region. -/
theorem orgCreate_quota_args_from_plan
    (client : CreateClient) (providerRegion : GoString) (plan : Model)
    (createResp : Organization) (q g : GoString)
    (hq : plan.QuotaId = .value q) (hqne : q ≠ [])
    (hcr : client.createOrganization plan.ProjectId.valueString providerRegion
      (toCreatePayload plan) = .ok createResp)
    (horg : plan.OrgId = .null) (hregion : plan.Region = .null)
    (hpr : providerRegion ≠ [])
    (hg : createResp.Guid = some g) (hgne : g ≠ []) :
    (∃ rest, (scfOrganizationCreate client providerRegion plan).2
        = CreateCall.createOrganization plan.ProjectId.valueString providerRegion
            (toCreatePayload plan)
          :: CreateCall.applyOrganizationQuota plan.ProjectId.valueString
              plan.Region.valueString plan.OrgId.valueString ⟨q⟩
          :: rest)
    ∧ plan.OrgId.valueString = [] ∧ plan.OrgId.valueString ≠ g
    ∧ plan.Region.valueString = [] ∧ plan.Region.valueString ≠ providerRegion := by
  have hov : plan.OrgId.valueString = [] := by rw [horg]; rfl
  have hrv : plan.Region.valueString = [] := by rw [hregion]; rfl
  have hqv : plan.QuotaId.valueString = q := by rw [hq]; rfl
  refine ⟨?_, hov, by rw [hov]; exact fun hc => hgne hc.symm,
    hrv, by rw [hrv]; exact fun hc => hpr hc.symm⟩
  rcases happly : client.applyOrganizationQuota plan.ProjectId.valueString
      plan.Region.valueString plan.OrgId.valueString ⟨q⟩ with e | aresp
  · refine ⟨[], ?_⟩
    simp [scfOrganizationCreate, hcr, hqv, hqne, happly]
  · obtain ⟨rest, hrest⟩ := createLoadStep_calls_extend client providerRegion
      plan.ProjectId.valueString createResp
      { plan with QuotaId := stringPointerValue aresp.QuotaId }
      [CreateCall.createOrganization plan.ProjectId.valueString providerRegion
         (toCreatePayload plan),
       CreateCall.applyOrganizationQuota plan.ProjectId.valueString
         plan.Region.valueString plan.OrgId.valueString ⟨q⟩]
    refine ⟨rest, ?_⟩
    simp only [scfOrganizationCreate, hcr, hqv, hqne, ne_eq, not_false_iff, if_true, happly]
    simpa using hrest

/-- C10 witness: a create-time plan with quota `q1`, null `org_id` and null
`region`, against a client whose create call returns guid `g-created` and a
provider-configured region `eu02`. -/
theorem orgCreate_quota_args_from_plan_witness :
    (planCreate.QuotaId = .value "q1".data ∧ "q1".data ≠ ([] : GoString)
      ∧ clientCreate.createOrganization planCreate.ProjectId.valueString "eu02".data
          (toCreatePayload planCreate) = .ok createRespOrg
      ∧ planCreate.OrgId = .null ∧ planCreate.Region = .null
      ∧ "eu02".data ≠ ([] : GoString)
      ∧ createRespOrg.Guid = some "g-created".data ∧ "g-created".data ≠ ([] : GoString))
    ∧ ((∃ rest, (scfOrganizationCreate clientCreate "eu02".data planCreate).2
          = CreateCall.createOrganization planCreate.ProjectId.valueString "eu02".data
              (toCreatePayload planCreate)
            :: CreateCall.applyOrganizationQuota planCreate.ProjectId.valueString
                planCreate.Region.valueString planCreate.OrgId.valueString ⟨"q1".data⟩
            :: rest)
        ∧ planCreate.OrgId.valueString = []
        ∧ planCreate.OrgId.valueString ≠ "g-created".data
        ∧ planCreate.Region.valueString = []
        ∧ planCreate.Region.valueString ≠ "eu02".data) := by
  refine ⟨⟨rfl, by decide, rfl, rfl, rfl, by decide, rfl, by decide⟩, ?_⟩
  exact orgCreate_quota_args_from_plan clientCreate "eu02".data planCreate createRespOrg
    "q1".data "g-created".data rfl (by decide) rfl rfl rfl (by decide) rfl (by decide)

end ScfOrg
